import Mathlib

/-!
Verification of the govinfo mirroring engine (`core/tasks/govinfo.py`).

This file gives a shallow embedding of the engine's core decision
procedures and state transitions:

* `should_download_sitemap` — the sitemap fetch decision (govinfo.py 292-311);
* `should_skip_sitemap` — the year/congress skip filter together with
  hand-rolled matchers for the four `re.match` URL shapes it tests
  (govinfo.py 231-265);
* `update_sitemap` / `update_sitemap2` — one node of the sitemap walk with
  its freshness-store read/write discipline (govinfo.py 95-228); recursion
  into child sitemaps and the multiprocessing dispatch of item tasks are
  abstracted as oracle functions carried in a context record, since they
  only touch other nodes' stores;
* `mirror_package` / `mirror_package_zipfile` / `extract_package_files` —
  the package mirror, its freshness-marker short-circuit, the ZIP
  extraction loop and its corruption / KeyError behavior
  (govinfo.py 317-502).

Python data is modelled as follows: Python `str` is `String`; a value that
may be `None` is `Option _`; a Python dict keyed by strings is an
association list `Dict` with `dget` / `dset` / clear; Python string
truthiness is `pyTruthyStr`; `str.strip` / `str.split(",")` / lexicographic
`<` are re-implemented over `List Char` (`pyStrip`, `pySplitComma`,
`pyStrLt`) because the builtin `String` operations do not reduce in the
kernel.  File-system and network effects are made explicit: the inputs a
run consults (cache files, marker files, archive bytes, remote bodies) are
record fields, and the outputs (writes, deletions, fetches, archive opens)
are returned in result records.
-/

/-! ### Python string primitives -/

/-- Python truthiness of an optional string: `None` and `""` are falsy. -/
def pyTruthyStr : Option String → Bool
  | none => false
  | some s => s ≠ ""

/-- Whitespace stripped by Python `str.strip()`. -/
def isPySpace (c : Char) : Bool :=
  c = ' ' ∨ c = '\t' ∨ c = '\n' ∨ c = '\r' ∨ c = '\x0b' ∨ c = '\x0c'

/-- Python `str.strip()`. -/
def pyStrip (s : String) : String :=
  String.mk (((s.data.dropWhile isPySpace).reverse.dropWhile isPySpace).reverse)

/-- Helper for `pySplitComma`: accumulates the current (reversed) field. -/
def splitCommaAux (cur : List Char) : List Char → List String
  | [] => [String.mk cur.reverse]
  | c :: r => if c = ',' then String.mk cur.reverse :: splitCommaAux [] r
              else splitCommaAux (c :: cur) r

/-- Python `str.split(",")`; in particular `"".split(",") = [""]`. -/
def pySplitComma (s : String) : List String := splitCommaAux [] s.data

/-- Python `in` on a list of strings. -/
def pyIn (x : String) (l : List String) : Bool := l.contains x

/-- Lexicographic comparison of char lists by code point. -/
def lexLt : List Char → List Char → Bool
  | [], [] => false
  | [], _ :: _ => true
  | _ :: _, [] => false
  | a :: as, b :: bs => if a < b then true else if b < a then false else lexLt as bs

/-- Python `<` on strings (lexicographic by code point). -/
def pyStrLt (a b : String) : Bool := lexLt a.data b.data

/-- A Python dict with string keys and string values, as an association list. -/
abbrev Dict := List (String × String)

/-- Python `d.get(k)` (also used for `d[k]` together with an explicit
`KeyError` branch at each use site). -/
def dget (d : Dict) (k : String) : Option String :=
  match d with
  | [] => none
  | (k', v) :: r => if k' = k then some v else dget r k

/-- Python `d[k] = v`: replace in place, else append. -/
def dset (d : Dict) (k v : String) : Dict :=
  match d with
  | [] => [(k, v)]
  | (k', v') :: r => if k' = k then (k, v) :: r else (k', v') :: dset r k v

/-! ### Selection options (the CLI option bundle, §6 of the spec) -/

/-- The caller-supplied options consulted by the core
(`options.get(...)` in govinfo.py).  Missing keys are the defaults. -/
structure Options where
  force : Bool := false
  cached : Bool := false
  years : String := ""
  congress : String := ""
  extract : String := ""
deriving DecidableEq

/-! ### should_download_sitemap (govinfo.py 292-311) -/

/-- `should_download_sitemap(lastmod_cache, current_lastmod, options)`.
`lastmod_cache` is `lastmod_cache.get("lastmod")` at the call site (line
140), so it is `None` or a string; `current_lastmod` is `None` at the root
of a tree and the (possibly empty) `<lastmod>` text for child sitemaps. -/
def should_download_sitemap (lastmod_cache current_lastmod : Option String)
    (options : Options) : Bool :=
  if pyTruthyStr current_lastmod = false then true
  else if options.force = true then true
  else if options.cached = true then false
  else decide (current_lastmod ≠ lastmod_cache)

/-! ### URL shape matchers for should_skip_sitemap (govinfo.py 231-265)

The four patterns are `re.match`es (anchored at the start, trailing text
allowed, `.` matching any character, `\w` alphanumeric or underscore,
backtracking greedy `+`).  Each is hand-compiled to a `List Char` matcher;
`tryLens`/`tryLensO` reproduce the greedy longest-first backtracking over
the length taken by a leading `\w+` group. -/

/-- `\w` (ASCII range; govinfo URLs are ASCII). -/
def isWordChar (c : Char) : Bool := c.isAlphanum || c = '_'

/-- Length of the maximal `\w*` run at the head of the list. -/
def wordRunLen : List Char → Nat
  | [] => 0
  | c :: r => if isWordChar c then wordRunLen r + 1 else 0

/-- Strip a literal: `stripLit p l = some r` iff `l = p ++ r`. -/
def stripLit : List Char → List Char → Option (List Char)
  | [], l => some l
  | _ :: _, [] => none
  | a :: p, b :: l => if a = b then stripLit p l else none

/-- Greedy backtracking for a leading `\w+`: try the continuation on the
longest candidate length first, then shorter, never length 0. -/
def tryLensO {α : Type} (f : Nat → Option α) : Nat → Option α
  | 0 => none
  | n + 1 => match f (n + 1) with
             | some x => some x
             | none => tryLensO f n

/-- Boolean variant of `tryLensO`. -/
def tryLens (f : Nat → Bool) : Nat → Bool
  | 0 => false
  | n + 1 => f (n + 1) || tryLens f n

/-- `.` then the literal `xml` then anything (`re.match` allows a tail). -/
def anyThenXml : List Char → Bool
  | [] => false
  | _ :: rest => (stripLit "xml".data rest).isSome

/-- `re.match(escape(base) + r"sitemap/(\w+)_sitemap_index.xml", url)`
as a boolean (govinfo.py line 233). -/
def matchCollectionIndex (url : String) : Bool :=
  match stripLit "https://www.govinfo.gov/sitemap/".data url.data with
  | none => false
  | some l =>
      tryLens (fun i => match stripLit "_sitemap_index".data (l.drop i) with
                        | some r => anyThenXml r
                        | none => false)
        (wordRunLen l)

/-- `re.match(escape(base) + r"sitemap/bulkdata/(\w+)/sitemapindex.xml", url)`
as a boolean (govinfo.py line 236). -/
def matchBulkdataIndex (url : String) : Bool :=
  match stripLit "https://www.govinfo.gov/sitemap/bulkdata/".data url.data with
  | none => false
  | some l =>
      tryLens (fun i => match stripLit "/sitemapindex".data (l.drop i) with
                        | some r => anyThenXml r
                        | none => false)
        (wordRunLen l)

/-- The tail `_(\d+)_sitemap.xml` after the `(\w+)` group: returns the
`(\d+)` group.  The `\d+` is forced to the maximal digit run because the
following literal starts with `_`, which is not a digit. -/
def yearTail (l : List Char) : Option String :=
  match l with
  | [] => none
  | c :: r =>
      if c = '_' then
        let d := r.takeWhile Char.isDigit
        if d = [] then none
        else match stripLit "_sitemap".data (r.drop d.length) with
             | some r2 => if anyThenXml r2 then some (String.mk d) else none
             | none => none
      else none

/-- `re.match(escape(base) + r"sitemap/(\w+)_(\d+)_sitemap.xml", url)`,
returning `m.group(2)` under Python's greedy backtracking
(govinfo.py line 245). -/
def matchYearSitemap (url : String) : Option String :=
  match stripLit "https://www.govinfo.gov/sitemap/".data url.data with
  | none => none
  | some l => tryLensO (fun i => yearTail (l.drop i)) (wordRunLen l)

/-- Does `/sitemap` then any char then `xml` occur at some position?  This
is the residue of the greedy `(.*)` group of the bulk-data leaf pattern. -/
def containsSlashSitemapXml : List Char → Bool
  | [] => false
  | c :: rest =>
      (match stripLit "/sitemap".data (c :: rest) with
       | some r => anyThenXml r
       | none => false) || containsSlashSitemapXml rest

/-- The tail `/(\d+)(.*)/sitemap.xml` after the `(\w+)` group: returns the
`(\d+)` group.  The `\d+` is the maximal digit run (any shorter split
would leave a digit where the `(.*)`-then-`/sitemap` remainder must place
a `/`, and the remainder condition is independent of how many digits the
`(.*)` absorbs). -/
def bulkGroupTail (l : List Char) : Option String :=
  match l with
  | [] => none
  | c :: r =>
      if c = '/' then
        let d := r.takeWhile Char.isDigit
        if d = [] then none
        else if containsSlashSitemapXml (r.drop d.length) then some (String.mk d)
        else none
      else none

/-- `re.match(escape(base) + r"sitemap/bulkdata/(\w+)/(\d+)(.*)/sitemap.xml", url)`,
returning `m.group(2)` (govinfo.py lines 254-257). -/
def matchBulkdataGrouping (url : String) : Option String :=
  match stripLit "https://www.govinfo.gov/sitemap/bulkdata/".data url.data with
  | none => none
  | some l => tryLensO (fun i => bulkGroupTail (l.drop i)) (wordRunLen l)

/-- `should_skip_sitemap(url, options)` (govinfo.py 231-265): sitemap
indexes are never skipped; a year-grouped collection sitemap is skipped
when the year filter is non-empty and does not contain the year; a
bulk-data grouping sitemap is skipped when the year filter or the congress
filter is non-empty and does not contain the numeric grouping token. -/
def should_skip_sitemap (url : String) (options : Options) : Bool :=
  if matchCollectionIndex url then false
  else if matchBulkdataIndex url then false
  else
    let year_filter := pyStrip options.years
    let congress_filter := pyStrip options.congress
    let skipYear :=
      match matchYearSitemap url with
      | some year => year_filter ≠ "" && !(pyIn year (pySplitComma year_filter))
      | none => false
    if skipYear then true
    else
      match matchBulkdataGrouping url with
      | some g =>
          (year_filter ≠ "" && !(pyIn g (pySplitComma year_filter)))
          || (congress_filter ≠ "" && !(pyIn g (pySplitComma congress_filter)))
      | none => false

/-! ### One node of the sitemap walk (govinfo.py 95-228)

`update_sitemap` loads the node's freshness store file, runs
`update_sitemap2`, and — in a `finally:` — writes the store back exactly
once, whether `update_sitemap2` returned or raised.  `update_sitemap2`
decides whether to download, fetches via the Transport, optionally updates
the store's `lastmod`, parses, and processes the entries.

The recursive calls for a `sitemapindex` and the multiprocessing dispatch
of a `urlset`'s package / bulk-data tasks only ever touch other nodes'
stores and the destination tree, so they are abstracted as the oracles
`childProc` and `itemProc` carried in `SitemapCtx`; either oracle may
raise (model: `Except.error`), in which case the exception propagates
through `update_sitemap2` exactly as in the source. -/

/-- Per-package freshness records (the `"packages"` sub-map of a store). -/
abbrev Packages := List (String × Dict)

/-- One node's freshness store file (`...-lastmod.yaml`):
its own `lastmod` plus the `packages` sub-map. -/
structure Store where
  lastmod : Option String := none
  packages : Packages := []
deriving DecidableEq

/-- Outcome of `etree.fromstring` plus the tag dispatch on lines 161/173:
a syntax error (which the source re-raises as `Exception`), a
`sitemapindex` with child `(loc, lastmod)` entries, a `urlset` with item
`(loc, lastmod)` entries, or some other tag (which falls through and
returns the empty result list). -/
inductive ParseOutcome
  | xmlError (msg : String)
  | sitemapindex (entries : List (String × String))
  | urlset (entries : List (String × String))
  | otherTag
deriving DecidableEq

/-- Everything one `update_sitemap` call consults about the outside world,
plus the oracles abstracting child recursion and item dispatch. -/
structure SitemapCtx where
  /-- Content of the node's `-lastmod.yaml` store file; `none` = absent. -/
  storeFile : Option Store
  /-- Content of the node's cached `sitemap.xml`; `none` = absent. -/
  cacheBody : Option String
  /-- Body the remote returns for this node; `none` = transport failure. -/
  network : Option String
  /-- `etree.fromstring` plus tag dispatch on the fetched body. -/
  parse : String → ParseOutcome
  /-- The recursive `update_sitemap(url, lastmod, ...)` call for one child
  of a `sitemapindex`; `Except.error` models a raised exception. -/
  childProc : String → String → Except String (List String)
  /-- The classification of `urlset` entries into package / bulk-data
  tasks and their dispatch through the pool (govinfo.py 178-227); takes
  the entries and the store's `packages` sub-map, returns the collected
  results and the updated sub-map, or raises. -/
  itemProc : List (String × String) → Packages → Except String (List String × Packages)

/-- Modelled from the spec: the Transport collaborator `utils.download`
(not part of src/): it "fetches a URL, optionally consulting/populating a
local byte cache, returning the body or a failure signal".  With `force`
it always goes to the network; otherwise it serves the local cache file if
present; with `cached` (cache-only) and no cache file it fails without a
network request.  Returns the body (or `none`) and whether a network
request was made. -/
def utils_download (force cached : Bool) (cacheFile network : Option String) :
    Option String × Bool :=
  if force then (network, true)
  else match cacheFile with
       | some b => (some b, false)
       | none => if cached then (none, false) else (network, true)

deriving instance DecidableEq for Except

/-- Result of the body `update_sitemap2`: the returned list or the raised
exception, the final in-memory store, whether a network fetch happened,
and whether entry processing (recursion / item dispatch) was reached. -/
structure Node2Out where
  ret : Except String (List String)
  store : Store
  fetched : Bool
  dispatched : Bool
deriving DecidableEq

/-- `results = results + sitemap_results` over the children of a
`sitemapindex` (govinfo.py 165-171); a raise in one child propagates. -/
def runChildren (childProc : String → String → Except String (List String)) :
    List (String × String) → Except String (List String)
  | [] => .ok []
  | (u, lm) :: rest =>
      match childProc u lm with
      | .error e => .error e
      | .ok rs =>
          match runChildren childProc rest with
          | .error e => .error e
          | .ok rest' => .ok (rs ++ rest')

/-- `update_sitemap2(url, current_lastmod, how_we_got_here, options,
lastmod_cache, cache_file)` (govinfo.py 131-228). -/
def update_sitemap2 (current_lastmod : Option String) (options : Options)
    (ctx : SitemapCtx) (lastmod_cache : Store) : Node2Out :=
  let download := should_download_sitemap lastmod_cache.lastmod current_lastmod options
  let dl := utils_download download options.cached ctx.cacheBody ctx.network
  match dl.1 with
  | none => ⟨.ok [], lastmod_cache, dl.2, false⟩
  | some body =>
      let lastmod_cache :=
        if download && pyTruthyStr current_lastmod then
          { lastmod_cache with lastmod := current_lastmod }
        else lastmod_cache
      match ctx.parse body with
      | .xmlError msg => ⟨.error ("XML error: " ++ msg), lastmod_cache, dl.2, false⟩
      | .sitemapindex entries =>
          ⟨runChildren ctx.childProc entries, lastmod_cache, dl.2, true⟩
      | .urlset entries =>
          match ctx.itemProc entries lastmod_cache.packages with
          | .error e => ⟨.error e, lastmod_cache, dl.2, true⟩
          | .ok (rs, pkgs) => ⟨.ok rs, { lastmod_cache with packages := pkgs }, dl.2, true⟩
      | .otherTag => ⟨.ok [], lastmod_cache, dl.2, false⟩

/-- Result of one `update_sitemap` call: outcome, the sequence of writes
made to this node's store file, and the fetch/dispatch observations. -/
structure NodeOut where
  ret : Except String (List String)
  storeWrites : List Store
  fetched : Bool
  dispatched : Bool
deriving DecidableEq

/-- `update_sitemap(url, current_lastmod, how_we_got_here, options)`
(govinfo.py 95-128): skip filter first (before the store is even read);
otherwise load the store (empty if the file is absent), run the body, and
write the store back exactly once in a `finally:` — also when the body
raised. -/
def update_sitemap (url : String) (current_lastmod : Option String)
    (options : Options) (ctx : SitemapCtx) : NodeOut :=
  if should_skip_sitemap url options then ⟨.ok [], [], false, false⟩
  else
    let store0 := ctx.storeFile.getD {}
    let r := update_sitemap2 current_lastmod options ctx store0
    ⟨r.ret, [r.store], r.fetched, r.dispatched⟩

/-! ### Package mirror and extractor (govinfo.py 317-502)

The archive on disk is `Option ZipData`: `none` = no file,
`some .corrupt` = a file `zipfile.ZipFile` refuses to open
(`zipfile.BadZipfile`), `some (.valid members)` = an archive whose member
names map to their bytes.  Exceptions are explicit: `PyExn` covers the
`KeyError` raised by `lastmod_cache['package']` on a missing key, the
`ValueError` for an unrecognized format, and `BadZipfile`. -/

/-- A package ZIP file as found on disk or returned by the remote. -/
inductive ZipData
  | corrupt
  | valid (members : Dict)
deriving DecidableEq

/-- The Python exceptions the mirror code can raise or catch. -/
inductive PyExn
  | keyError (k : String)
  | valueError (msg : String)
  | badZipfile
deriving DecidableEq

/-- Python `os.path.dirname` (everything before the last `/`; `""` when
there is no `/`). -/
def dirname (s : String) : String :=
  String.mk (((s.data.reverse.dropWhile (fun c => c ≠ '/')).drop 1).reverse)

/-- Python `os.path.join(a, b)` for a relative `b`. -/
def osJoin (a b : String) : String := if a = "" then b else a ++ "/" ++ b

/-- Helper for `pyReplace` with enough fuel (the pattern is nonempty at
every use site, so each step consumes at least one character). -/
def replaceAux (pat repl : List Char) : Nat → List Char → List Char
  | 0, l => l
  | _ + 1, [] => []
  | fuel + 1, c :: rest =>
      match stripLit pat (c :: rest) with
      | some r => repl ++ replaceAux pat repl fuel r
      | none => c :: replaceAux pat repl fuel rest

/-- Python `s.replace(pat, repl)`: all non-overlapping occurrences,
left to right. -/
def pyReplace (s pat repl : String) : String :=
  String.mk (replaceAux pat.data repl.data s.data.length s.data)

/-- The `format_paths` table (govinfo.py 428-443) with the
`{collection}-{package_name}` template substitution applied: maps a format
to the member name inside the package ZIP and the local file name. -/
def format_paths (collection package_name : String) (format : String) :
    Option (String × String) :=
  if format = "pdf" then
    some (collection ++ "-" ++ package_name ++ "/pdf/" ++ collection ++ "-"
            ++ package_name ++ ".pdf", "document.pdf")
  else if format = "text" then
    some (collection ++ "-" ++ package_name ++ "/html/" ++ collection ++ "-"
            ++ package_name ++ ".htm", "document.html")
  else if format = "xml" then
    some (collection ++ "-" ++ package_name ++ "/xml/" ++ collection ++ "-"
            ++ package_name ++ ".xml", "document.xml")
  else if format = "mods" then
    some (collection ++ "-" ++ package_name ++ "/mods.xml", "mods.xml")
  else if format = "premis" then
    some (collection ++ "-" ++ package_name ++ "/premis.xml", "premis.xml")
  else none

/-- `set(format for format in options.get("extract", "").split(",") if
format.strip())` (govinfo.py 424).  A Python set is iterated in some
arbitrary but fixed order; the embedding uses the deduplicated list (the
claims proved below do not depend on the order). -/
def requested_formats (options : Options) : List String :=
  ((pySplitComma options.extract).filter (fun f => pyStrip f ≠ "")).dedup

/-- The eligibility set comprehension (govinfo.py 446-450):
`lastmod_cache.get(format) is None or lastmod_cache[format] <
lastmod_cache['package']`.  The `or` short-circuits, so the
`lastmod_cache['package']` lookup — and its possible `KeyError` — only
happens for formats with a recorded timestamp. -/
def computeEligible (cache : Dict) : List String → Except PyExn (List String)
  | [] => .ok []
  | f :: rest =>
      match dget cache f with
      | none =>
          match computeEligible cache rest with
          | .error e => .error e
          | .ok es => .ok (f :: es)
      | some t =>
          match dget cache "package" with
          | none => .error (.keyError "package")
          | some p =>
              match computeEligible cache rest with
              | .error e => .error e
              | .ok es => .ok (if pyStrLt t p then f :: es else es)

/-- Result of `extract_package_files`: the returned list (or raised
exception), whether an archive open was attempted, the destination files
written (writes performed before a raise are kept, as on disk), the final
`files` dict, and the packages for which the metadata collaborator
(`extract_bill_version_metadata`) was invoked. -/
structure ExtractOut where
  ret : Except PyExn (List String)
  opened : Bool
  written : List String
  cache : Dict
  meta : List String
deriving DecidableEq

/-- The per-format loop inside `with zipfile.ZipFile(...)` (govinfo.py
460-500).  For each eligible format: unknown formats raise `ValueError`;
a missing member is caught (`except KeyError: continue`) but the
`finally:` still records `lastmod_cache[format] = lastmod_cache['package']`
— a lookup that itself raises `KeyError` when `'package'` is absent; a
present member is written to its local path, recorded, and for `"text"` a
plain-text sibling (`local_path.replace(".html", ".txt")`) is also
written; for a BILLS `mods` file the metadata collaborator is invoked. -/
def extractLoop (collection package_name dir : String) (members : Dict)
    (cache : Dict) (written extracted meta : List String) :
    List String → ExtractOut
  | [] => ⟨.ok extracted, true, written, cache, meta⟩
  | f :: rest =>
      match format_paths collection package_name f with
      | none => ⟨.error (.valueError f), true, written, cache, meta⟩
      | some (package_path, local_name) =>
          let local_path := osJoin dir local_name
          match dget members package_path with
          | none =>
              match dget cache "package" with
              | none => ⟨.error (.keyError "package"), true, written, cache, meta⟩
              | some p =>
                  extractLoop collection package_name dir members
                    (dset cache f p) written extracted meta rest
          | some _bytes =>
              let written := written ++ [local_path]
              match dget cache "package" with
              | none => ⟨.error (.keyError "package"), true, written, cache, meta⟩
              | some p =>
                  let cache := dset cache f p
                  let extracted := extracted ++ [local_path]
                  let txt := pyReplace local_path ".html" ".txt"
                  let written := if f = "text" then written ++ [txt] else written
                  let extracted := if f = "text" then extracted ++ [txt] else extracted
                  let meta := if collection = "BILLS" && f = "mods" then
                                meta ++ [package_name]
                              else meta
                  extractLoop collection package_name dir members cache
                    written extracted meta rest

/-- `extract_package_files(collection, package_name, package_file,
lastmod_cache, options)` (govinfo.py 415-502), with the archive passed
explicitly as the state of `package_file` on disk. -/
def extract_package_files (collection package_name package_file : String)
    (lastmod_cache : Dict) (options : Options) (archive : Option ZipData) :
    ExtractOut :=
  match archive with
  | none => ⟨.ok [], false, [], lastmod_cache, []⟩
  | some z =>
      match computeEligible lastmod_cache (requested_formats options) with
      | .error e => ⟨.error e, false, [], lastmod_cache, []⟩
      | .ok eligible =>
          if eligible = [] then ⟨.ok [], false, [], lastmod_cache, []⟩
          else
            match z with
            | .corrupt => ⟨.error .badZipfile, true, [], lastmod_cache, []⟩
            | .valid members =>
                extractLoop collection package_name (dirname package_file)
                  members lastmod_cache [] [] [] eligible

/-- Result of `mirror_package_zipfile` (govinfo.py 383-412): whether the
archive was downloaded (the Python function returns `True` exactly then),
the resulting archive on disk, and the updated `files` dict. -/
structure ZipStepOut where
  downloaded : Bool
  archive : Option ZipData
  cache : Dict
deriving DecidableEq

/-- `mirror_package_zipfile(collection, package_name, file_path, lastmod,
lastmod_cache, options)`: skip when the recorded package timestamp equals
`lastmod` and `force` is not set; with `cached`, skip when the file is
already on disk; otherwise download (the transport result is ignored by
the source, so the download is modelled as replacing the file with the
remote archive) and record `lastmod_cache['package'] = lastmod`. -/
def mirror_package_zipfile (lastmod : String) (lastmod_cache : Dict)
    (options : Options) (archive0 : Option ZipData) (remoteZip : ZipData) :
    ZipStepOut :=
  if dget lastmod_cache "package" = some lastmod ∧ options.force = false then
    ⟨false, archive0, lastmod_cache⟩
  else if archive0.isSome ∧ options.cached = true then
    ⟨false, archive0, lastmod_cache⟩
  else
    ⟨true, some remoteZip, dset lastmod_cache "package" lastmod⟩

/-- The Python value returned by `mirror_package`: the early marker-match
return is the bare boolean `True` (govinfo.py line 353); every other
return is a list of paths. -/
inductive MirrorRet
  | pyTrue
  | paths (ps : List String)
deriving DecidableEq

/-- The outside world one `mirror_package` call consults: the output path
computed by `get_output_path` (`none` = "should skip"; its collection
specific routing delegates to collaborators outside src/), the archive and
the `-lastmod.txt` marker sibling on disk, and the archive the remote
would serve. -/
structure MirrorEnv where
  path : Option String
  archive0 : Option ZipData
  marker0 : Option String
  remoteZip : ZipData
deriving DecidableEq

/-- Result of one `mirror_package` call. -/
structure MirrorOut where
  ret : Except PyExn MirrorRet
  archive : Option ZipData
  marker : Option String
  cache : Dict
  fetchedZip : Bool
  opened : Bool
  written : List String
  deletedArchive : Bool
deriving DecidableEq

/-- `mirror_package(collection, package_name, lastmod, lastmod_cache,
options)` (govinfo.py 317-380).  `lastmod_cache` is the package's `files`
dict (the source's two `setdefault` steps on lines 328-329 select it).
If the dict is non-empty but the archive is missing, the dict is cleared.
If the marker file exists, `force` is not set and its content equals
`lastmod`, the call returns `True` having done nothing.  Otherwise the
archive is downloaded if stale, the extractor runs, `BadZipfile` deletes
the archive (only — the marker variable is set to `None`, the marker file
stays on disk) and returns `[]`; on a normal return the marker file is
written with `lastmod`. -/
def mirror_package (collection package_name lastmod : String)
    (lastmod_cache : Dict) (options : Options) (env : MirrorEnv) : MirrorOut :=
  match env.path with
  | none => ⟨.ok (.paths []), env.archive0, env.marker0, lastmod_cache,
             false, false, [], false⟩
  | some path =>
      let file_path := path ++ "/package.zip"
      let cache1 := if lastmod_cache ≠ [] ∧ env.archive0 = none then []
                    else lastmod_cache
      if env.marker0.isSome ∧ options.force = false ∧ env.marker0 = some lastmod then
        ⟨.ok .pyTrue, env.archive0, env.marker0, cache1, false, false, [], false⟩
      else
        let z := mirror_package_zipfile lastmod cache1 options env.archive0 env.remoteZip
        let downloaded_files := if z.downloaded then [file_path] else []
        let e := extract_package_files collection package_name file_path
                   z.cache options z.archive
        match e.ret with
        | .error .badZipfile =>
            ⟨.ok (.paths []), none, env.marker0, e.cache, z.downloaded,
             e.opened, e.written, true⟩
        | .error exn =>
            ⟨.error exn, z.archive, env.marker0, e.cache, z.downloaded,
             e.opened, e.written, false⟩
        | .ok extracted =>
            let marker1 := if lastmod ≠ "" then some lastmod else env.marker0
            ⟨.ok (.paths (downloaded_files ++ extracted)), z.archive, marker1,
             e.cache, z.downloaded, e.opened, e.written, false⟩

/-! ### Helper lemmas about one node of the walk -/

/-- The store `update_sitemap2` leaves in memory has either the unchanged
`lastmod`, or the parent's — and the latter only when the fetch decision
was to download and the parent lastmod is a truthy token. -/
theorem store_lastmod_cases (p : Option String) (o : Options) (ctx : SitemapCtx)
    (s0 : Store) :
    (update_sitemap2 p o ctx s0).store.lastmod = s0.lastmod
    ∨ ((update_sitemap2 p o ctx s0).store.lastmod = p
        ∧ should_download_sitemap s0.lastmod p o = true ∧ pyTruthyStr p = true) := by
  simp only [update_sitemap2]
  split
  · exact Or.inl rfl
  · rcases hc : (should_download_sitemap s0.lastmod p o && pyTruthyStr p) with _ | _
    · left
      simp only [hc, Bool.false_eq_true, if_false]
      split
      · rfl
      · rfl
      · split
        · rfl
        · rfl
      · rfl
    · right
      refine ⟨?_, (Bool.and_eq_true _ _ |>.mp hc).1, (Bool.and_eq_true _ _ |>.mp hc).2⟩
      simp only [hc, if_true]
      split
      · rfl
      · rfl
      · split
        · rfl
        · rfl
      · rfl

/-- `update_sitemap2` reports exactly the fetch activity of the one
Transport call it makes. -/
theorem fetched_eq (p : Option String) (o : Options) (ctx : SitemapCtx) (s0 : Store) :
    (update_sitemap2 p o ctx s0).fetched
      = (utils_download (should_download_sitemap s0.lastmod p o) o.cached
          ctx.cacheBody ctx.network).2 := by
  simp only [update_sitemap2]
  split
  · rfl
  · split
    · rfl
    · rfl
    · split
      · rfl
      · rfl
    · rfl

/-! ### C2 -/

/-- C2: for every call of `should_download_sitemap` with stored lastmod
`s`, parent-supplied lastmod `p` and options `o`: it returns `true` when
`p` is absent (Python-falsy: `None` or the empty token); otherwise `true`
when `o.force` is set; otherwise `false` when `o.cached` is set; otherwise
`true` exactly when `p` differs from `s`. -/
theorem C2_fetch_decision : ∀ (s p : Option String) (o : Options),
    (pyTruthyStr p = false → should_download_sitemap s p o = true)
    ∧ (pyTruthyStr p = true → o.force = true → should_download_sitemap s p o = true)
    ∧ (pyTruthyStr p = true → o.force = false → o.cached = true →
        should_download_sitemap s p o = false)
    ∧ (pyTruthyStr p = true → o.force = false → o.cached = false →
        (should_download_sitemap s p o = true ↔ p ≠ s)) := by
  intro s p o
  refine ⟨fun h1 => ?_, fun h1 h2 => ?_, fun h1 h2 h3 => ?_, fun h1 h2 h3 => ?_⟩
  · simp [should_download_sitemap, h1]
  · simp [should_download_sitemap, h1, h2]
  · simp [should_download_sitemap, h1, h2, h3]
  · simp [should_download_sitemap, h1, h2, h3]

/-- Witness for C2 at concrete inputs. -/
theorem C2_fetch_decision_witness :
    should_download_sitemap (some "2024-01-01") (some "2024-02-02") {} = true :=
  ((C2_fetch_decision (some "2024-01-01") (some "2024-02-02") {}).2.2.2
    (by decide) (by decide) (by decide)).mpr (by decide)

/-! ### C3 -/

/-- C3: for every sitemap node that passes the skip filter, the node's
freshness store file is written back exactly once when processing
finishes — on success as well as on transport failure (body `none`) or a
parse exception (the body raising, `ret = .error _`) — and the stored
`lastmod` is set to the parent-supplied lastmod only if the fetch decision
was to download and the parent-supplied lastmod is a truthy token;
otherwise the stored `lastmod` is left unchanged. -/
theorem C3_store_written_once : ∀ (url : String) (p : Option String) (o : Options)
    (ctx : SitemapCtx), should_skip_sitemap url o = false →
    (update_sitemap url p o ctx).storeWrites.length = 1
    ∧ ∀ w ∈ (update_sitemap url p o ctx).storeWrites,
        w.lastmod = (ctx.storeFile.getD {}).lastmod
        ∨ (w.lastmod = p
            ∧ should_download_sitemap (ctx.storeFile.getD {}).lastmod p o = true
            ∧ pyTruthyStr p = true) := by
  intro url p o ctx hskip
  constructor
  · simp [update_sitemap, hskip]
  · intro w hw
    simp [update_sitemap, hskip] at hw
    rw [hw]
    exact store_lastmod_cases p o ctx (ctx.storeFile.getD {})

/-- Witness for C3: a concrete node whose parse raises still writes its
store exactly once. -/
theorem C3_store_written_once_witness :
    should_skip_sitemap "https://www.govinfo.gov/sitemap/BILLS_2020_sitemap.xml" {} = false
    ∧ (update_sitemap "https://www.govinfo.gov/sitemap/BILLS_2020_sitemap.xml"
        (some "LM") {}
        ⟨some { lastmod := some "OLD" }, some "cached", some "net",
         fun _ => .xmlError "bad", fun _ _ => .ok [],
         fun _ pk => .ok ([], pk)⟩).storeWrites.length = 1 :=
  ⟨by decide,
   (C3_store_written_once "https://www.govinfo.gov/sitemap/BILLS_2020_sitemap.xml"
      (some "LM") {}
      ⟨some { lastmod := some "OLD" }, some "cached", some "net",
       fun _ => .xmlError "bad", fun _ _ => .ok [],
       fun _ pk => .ok ([], pk)⟩ (by decide)).1⟩

/-! ### C9 -/

/-- C9: a child sitemap entry whose lastmod token is the empty string is
decided for download on every run (the empty token is Python-falsy, like
an absent one), the node is actually fetched whenever the skip filter
passes, and no store write ever records a new lastmod for it — so the node
is re-fetched unconditionally on every subsequent run. -/
theorem C9_empty_lastmod_refetch :
    (∀ (s : Option String) (o : Options),
        should_download_sitemap s (some "") o = true)
    ∧ (∀ (url : String) (o : Options) (ctx : SitemapCtx),
        should_skip_sitemap url o = false →
        (update_sitemap url (some "") o ctx).fetched = true)
    ∧ (∀ (url : String) (o : Options) (ctx : SitemapCtx)
        (w : Store), w ∈ (update_sitemap url (some "") o ctx).storeWrites →
        w.lastmod = (ctx.storeFile.getD {}).lastmod) := by
  have hdec : ∀ (s : Option String) (o : Options),
      should_download_sitemap s (some "") o = true := by
    intro s o
    simp [should_download_sitemap, pyTruthyStr]
  refine ⟨hdec, fun url o ctx hskip => ?_, fun url o ctx w hw => ?_⟩
  · simp only [update_sitemap, hskip, Bool.false_eq_true, if_false]
    rw [fetched_eq, hdec]
    simp [utils_download]
  · by_cases hs : should_skip_sitemap url o = true
    · simp [update_sitemap, hs] at hw
    · rw [Bool.not_eq_true] at hs
      simp [update_sitemap, hs] at hw
      rw [hw]
      rcases store_lastmod_cases (some "") o ctx (ctx.storeFile.getD {}) with h | h
      · exact h
      · exact absurd h.2.2 (by simp [pyTruthyStr])

/-- Witness for C9 at a concrete node. -/
theorem C9_empty_lastmod_refetch_witness :
    (update_sitemap "https://www.govinfo.gov/sitemap/BILLS_2020_sitemap.xml"
      (some "") { cached := true }
      ⟨none, none, some "net", fun _ => .otherTag, fun _ _ => .ok [],
       fun _ pk => .ok ([], pk)⟩).fetched = true :=
  C9_empty_lastmod_refetch.2.1
    "https://www.govinfo.gov/sitemap/BILLS_2020_sitemap.xml" { cached := true }
    ⟨none, none, some "net", fun _ => .otherTag, fun _ _ => .ok [],
     fun _ pk => .ok ([], pk)⟩ (by decide)

/-! ### C4 -/

/-- C4 counterexample: with `cached` set and no local files present, the
root sitemap index (parent lastmod absent) IS downloaded: its fetch
decision is `true` before the `cached` option is ever consulted
(govinfo.py 295-298), and the Transport is then invoked with
`force=True`.  This falsifies the claim that no fetches occur and that in
particular the root sitemap index is not downloaded. -/
theorem C4_counterexample :
    should_download_sitemap none none { cached := true } = true
    ∧ (update_sitemap "https://www.govinfo.gov/sitemap/BILLS_sitemap_index.xml"
        none { cached := true }
        ⟨none, none, some "body", fun _ => .otherTag, fun _ _ => .ok [],
         fun _ pk => .ok ([], pk)⟩).fetched = true := by decide

/-- C4 amended: with `cached` set and no local files present, a node whose
parent-supplied lastmod is absent or empty (the root of a tree) is still
downloaded whenever the skip filter passes; every node with a nonempty
parent-supplied lastmod performs no fetch, returns no results and
dispatches no item tasks — so no destination files are created below such
nodes. -/
theorem C4_cached_only : (∀ (url : String) (p : Option String) (o : Options)
      (ctx : SitemapCtx), o.cached = true → pyTruthyStr p = false →
      should_skip_sitemap url o = false →
      (update_sitemap url p o ctx).fetched = true)
    ∧ (∀ (url lm : String) (o : Options) (ctx : SitemapCtx),
      o.cached = true → o.force = false → lm ≠ "" →
      ctx.storeFile = none → ctx.cacheBody = none →
      (update_sitemap url (some lm) o ctx).fetched = false
      ∧ (update_sitemap url (some lm) o ctx).ret = .ok []
      ∧ (update_sitemap url (some lm) o ctx).dispatched = false) := by
  constructor
  · intro url p o ctx hc hp hskip
    simp only [update_sitemap, hskip, Bool.false_eq_true, if_false]
    rw [fetched_eq]
    have hd : should_download_sitemap (ctx.storeFile.getD {}).lastmod p o = true := by
      simp [should_download_sitemap, hp]
    rw [hd]
    simp [utils_download]
  · intro url lm o ctx hc hf hl hsf hcb
    by_cases hs : should_skip_sitemap url o = true
    · refine ⟨?_, ?_, ?_⟩ <;> simp [update_sitemap, hs]
    · rw [Bool.not_eq_true] at hs
      have hd : should_download_sitemap (none : Option String) (some lm) o = false := by
        simp [should_download_sitemap, pyTruthyStr, hl, hf, hc]
      refine ⟨?_, ?_, ?_⟩ <;>
        simp [update_sitemap, hs, hsf, update_sitemap2, hd, utils_download, hcb, hc]

/-- Witness for C4's amended statement at concrete nodes: the root is
fetched under `cached`; a child node with a nonempty lastmod is not. -/
theorem C4_cached_only_witness :
    (update_sitemap "https://www.govinfo.gov/sitemap/BILLS_sitemap_index.xml"
      none { cached := true }
      ⟨none, none, some "body", fun _ => .otherTag, fun _ _ => .ok [],
       fun _ pk => .ok ([], pk)⟩).fetched = true
    ∧ (update_sitemap "https://www.govinfo.gov/sitemap/BILLS_2020_sitemap.xml"
        (some "LM") { cached := true }
        ⟨none, none, some "body", fun _ => .otherTag, fun _ _ => .ok [],
         fun _ pk => .ok ([], pk)⟩).fetched = false :=
  ⟨C4_cached_only.1 "https://www.govinfo.gov/sitemap/BILLS_sitemap_index.xml"
      none { cached := true }
      ⟨none, none, some "body", fun _ => .otherTag, fun _ _ => .ok [],
       fun _ pk => .ok ([], pk)⟩ (by decide) (by decide) (by decide),
   (C4_cached_only.2 "https://www.govinfo.gov/sitemap/BILLS_2020_sitemap.xml"
      "LM" { cached := true }
      ⟨none, none, some "body", fun _ => .otherTag, fun _ _ => .ok [],
       fun _ pk => .ok ([], pk)⟩ (by decide) (by decide) (by decide)
      (by decide) (by decide)).1⟩

/-! ### C7 -/

/-- `stripLit p (p ++ r) = some r`. -/
theorem stripLit_self_append : ∀ (p r : List Char), stripLit p (p ++ r) = some r
  | [], _ => rfl
  | a :: p, r => by simp [stripLit, stripLit_self_append p r]

/-- `stripLit p l` succeeding means `l` literally starts with `p`. -/
theorem stripLit_eq_append : ∀ (p l r : List Char), stripLit p l = some r → l = p ++ r := by
  intro p
  induction p with
  | nil =>
      intro l r h
      simp only [stripLit, Option.some.injEq] at h
      simpa using h
  | cons a p ih =>
      intro l r h
      cases l with
      | nil => simp [stripLit] at h
      | cons b l' =>
          simp only [stripLit] at h
          by_cases hab : a = b
          · subst hab
            simp only [if_pos rfl] at h
            simp [ih l' r h]
          · simp [hab] at h

/-- A URL matching the bulk-data grouping shape starts with
`.../sitemap/bulkdata/`, so the year-grouped collection shape — which
needs a `_` within the leading `\w+` run after `.../sitemap/` — cannot
match it. -/
theorem bulk_no_year (url g : String)
    (h : matchBulkdataGrouping url = some g) : matchYearSitemap url = none := by
  unfold matchBulkdataGrouping at h
  rcases hl : stripLit "https://www.govinfo.gov/sitemap/bulkdata/".data url.data
    with _ | l
  · rw [hl] at h
    exact absurd h (by simp)
  · have hurl : url.data
        = "https://www.govinfo.gov/sitemap/bulkdata/".data ++ l :=
      stripLit_eq_append _ _ _ hl
    have hsplit : "https://www.govinfo.gov/sitemap/bulkdata/".data
        = "https://www.govinfo.gov/sitemap/".data
          ++ ('b' :: 'u' :: 'l' :: 'k' :: 'd' :: 'a' :: 't' :: 'a' :: '/' :: []) := by
      decide
    have h2 : stripLit "https://www.govinfo.gov/sitemap/".data url.data
        = some (('b' :: 'u' :: 'l' :: 'k' :: 'd' :: 'a' :: 't' :: 'a' :: '/' :: []) ++ l) := by
      rw [hurl, hsplit, List.append_assoc]
      exact stripLit_self_append _ _
    unfold matchYearSitemap
    rw [h2]
    rfl

/-- C7: the skip filter never skips a URL of either sitemap-index shape,
whatever the filters; a year-grouped collection sitemap (and not of index
shape) is skipped exactly when the year filter is nonempty and the URL's
year is not in it; a bulk-data grouping sitemap (and not of index shape)
is skipped exactly when the year filter or the congress filter is nonempty
and the grouping token is not in that filter; and a skipped node is
returned empty with no fetch, no store write and no dispatch. -/
theorem C7_skip_filter :
    (∀ (url : String) (o : Options),
        matchCollectionIndex url = true ∨ matchBulkdataIndex url = true →
        should_skip_sitemap url o = false)
    ∧ (∀ (url : String) (o : Options) (y : String),
        matchCollectionIndex url = false → matchBulkdataIndex url = false →
        matchYearSitemap url = some y →
        should_skip_sitemap url o
          = (pyStrip o.years ≠ "" && !(pyIn y (pySplitComma (pyStrip o.years)))))
    ∧ (∀ (url : String) (o : Options) (g : String),
        matchCollectionIndex url = false → matchBulkdataIndex url = false →
        matchBulkdataGrouping url = some g →
        should_skip_sitemap url o
          = ((pyStrip o.years ≠ "" && !(pyIn g (pySplitComma (pyStrip o.years))))
             || (pyStrip o.congress ≠ ""
                  && !(pyIn g (pySplitComma (pyStrip o.congress))))))
    ∧ (∀ (url : String) (p : Option String) (o : Options) (ctx : SitemapCtx),
        should_skip_sitemap url o = true →
        (update_sitemap url p o ctx).ret = .ok []
        ∧ (update_sitemap url p o ctx).storeWrites = []
        ∧ (update_sitemap url p o ctx).fetched = false
        ∧ (update_sitemap url p o ctx).dispatched = false) := by
  refine ⟨fun url o h => ?_, fun url o y h1 h2 hy => ?_, fun url o g h1 h2 hg => ?_,
    fun url p o ctx h => ?_⟩
  · rcases h with h | h
    · simp [should_skip_sitemap, h]
    · by_cases h1 : matchCollectionIndex url = true
      · simp [should_skip_sitemap, h1]
      · rw [Bool.not_eq_true] at h1
        simp [should_skip_sitemap, h1, h]
  · have hb : matchBulkdataGrouping url = none := by
      rcases hb : matchBulkdataGrouping url with _ | g
      · rfl
      · rw [bulk_no_year url g hb] at hy
        exact absurd hy (by simp)
    simp only [should_skip_sitemap, h1, h2, hy, hb, Bool.false_eq_true, if_false]
    by_cases hc : (pyStrip o.years ≠ ""
        && !(pyIn y (pySplitComma (pyStrip o.years)))) = true
    · simp [hc]
    · rw [Bool.not_eq_true] at hc
      simp [hc]
  · have hy : matchYearSitemap url = none := bulk_no_year url g hg
    simp [should_skip_sitemap, h1, h2, hy, hg]
  · refine ⟨?_, ?_, ?_, ?_⟩ <;> simp [update_sitemap, h]

/-- Witness for C7 at concrete URLs: a 2019 collection sitemap is pruned
under a year filter of 2020. -/
theorem C7_skip_filter_witness :
    should_skip_sitemap "https://www.govinfo.gov/sitemap/BILLS_2019_sitemap.xml"
      { years := "2020" } = true := by
  have h := C7_skip_filter.2.1 "https://www.govinfo.gov/sitemap/BILLS_2019_sitemap.xml"
    { years := "2020" } "2019" (by decide) (by decide) (by decide)
  rw [h]
  decide

/-! ### Dict and eligibility lemmas -/

/-- Reading back the key just set. -/
theorem dget_dset_self (d : Dict) (k v : String) : dget (dset d k v) k = some v := by
  induction d with
  | nil => simp [dset, dget]
  | cons kv rest ih =>
      rcases kv with ⟨k', v'⟩
      by_cases h : k' = k
      · simp [dset, dget, h]
      · simp [dset, dget, h, ih]

/-- Setting one key leaves the others unchanged. -/
theorem dget_dset_ne (d : Dict) (k v x : String) (h : x ≠ k) :
    dget (dset d k v) x = dget d x := by
  induction d with
  | nil =>
      simp [dset, dget]
      intro he
      exact absurd he.symm h
  | cons kv rest ih =>
      rcases kv with ⟨k', v'⟩
      by_cases hk : k' = k
      · subst hk
        have hne : ¬(k' = x) := fun he => h he.symm
        simp [dset, dget, hne]
      · simp only [dset, if_neg hk]
        by_cases hx : k' = x
        · simp [dget, hx]
        · simp [dget, hx, ih]

/-- The eligibility criterion of the comprehension (govinfo.py 446-450)
when the package timestamp is present: the recorded component timestamp is
absent or strictly older than the package timestamp. -/
def eligibleFmt (cache : Dict) (p : String) (f : String) : Bool :=
  match dget cache f with
  | none => true
  | some t => pyStrLt t p

/-- With a recorded package timestamp, the eligibility comprehension never
raises and computes exactly the `eligibleFmt` filter. -/
theorem computeEligible_with_package (cache : Dict) (p : String)
    (hp : dget cache "package" = some p) :
    ∀ L : List String, computeEligible cache L = .ok (L.filter (eligibleFmt cache p)) := by
  intro L
  induction L with
  | nil => rfl
  | cons f rest ih =>
      rcases hf : dget cache f with _ | t
      · simp [computeEligible, hf, ih, List.filter_cons, eligibleFmt]
      · rcases ht : pyStrLt t p with _ | _ <;>
          simp [computeEligible, hf, hp, ih, List.filter_cons, eligibleFmt, ht]

/-- When no requested format has a recorded timestamp, every one is
eligible and the package timestamp is never looked up. -/
theorem computeEligible_all_none (cache : Dict) :
    ∀ L : List String, (∀ f ∈ L, dget cache f = none) →
    computeEligible cache L = .ok L := by
  intro L
  induction L with
  | nil => intro _; rfl
  | cons f rest ih =>
      intro h
      have hf : dget cache f = none := h f (by simp)
      have hrest := ih (fun g hg => h g (by simp [hg]))
      simp [computeEligible, hf, hrest]

/-- When the package timestamp is absent but some format in the list has a
recorded timestamp, the comprehension raises `KeyError('package')`. -/
theorem computeEligible_keyError (cache : Dict)
    (hp : dget cache "package" = none) :
    ∀ L : List String, (∃ f ∈ L, (dget cache f).isSome = true) →
    computeEligible cache L = .error (.keyError "package") := by
  intro L
  induction L with
  | nil => rintro ⟨f, hf, _⟩; exact absurd hf (by simp)
  | cons f rest ih =>
      rintro ⟨g, hg, hgs⟩
      rcases hf : dget cache f with _ | t
      · have hgr : g ∈ rest := by
          rcases List.mem_cons.mp hg with h | h
          · rw [h, hf] at hgs
            exact absurd hgs (by simp)
          · exact h
        simp [computeEligible, hf, ih ⟨g, hgr, hgs⟩]
      · simp [computeEligible, hf, hp]

/-! ### C6 -/

/-- C6: when the item record has a package timestamp `p`, a requested
format is eligible exactly when its recorded component timestamp is absent
or strictly older (Python string `<`) than `p`; and when the eligible set
is empty the extractor returns an empty list without attempting to open
the archive. -/
theorem C6_format_eligibility : ∀ (collection package_name package_file : String)
    (cache : Dict) (o : Options) (z : Option ZipData) (p : String),
    dget cache "package" = some p →
    (∀ f : String, eligibleFmt cache p f = true ↔
        dget cache f = none ∨ ∃ t, dget cache f = some t ∧ pyStrLt t p = true)
    ∧ computeEligible cache (requested_formats o)
        = .ok ((requested_formats o).filter (eligibleFmt cache p))
    ∧ ((requested_formats o).filter (eligibleFmt cache p) = [] →
        (extract_package_files collection package_name package_file cache o z).ret = .ok []
        ∧ (extract_package_files collection package_name package_file cache o z).opened
            = false) := by
  intro collection package_name package_file cache o z p hp
  refine ⟨fun f => ?_, computeEligible_with_package cache p hp _, fun hempty => ?_⟩
  · rcases hf : dget cache f with _ | t
    · simp [eligibleFmt, hf]
    · simp [eligibleFmt, hf]
  · rcases z with _ | z'
    · exact ⟨rfl, rfl⟩
    · have he := computeEligible_with_package cache p hp (requested_formats o)
      rw [hempty] at he
      constructor <;> simp [extract_package_files, he]

/-- Witness for C6: a `pdf` recorded at the package timestamp is not
re-extracted and the archive is not opened. -/
theorem C6_format_eligibility_witness :
    dget [("package", "L"), ("pdf", "L")] "package" = some "L"
    ∧ (extract_package_files "BILLS" "p1" "out/package.zip"
        [("package", "L"), ("pdf", "L")] { extract := "pdf" }
        (some (.valid []))).opened = false :=
  ⟨by decide,
   ((C6_format_eligibility "BILLS" "p1" "out/package.zip"
      [("package", "L"), ("pdf", "L")] { extract := "pdf" }
      (some (.valid [])) "L" (by decide)).2.2 (by decide)).2⟩

/-! ### C5 -/

/-- C5 counterexample: when the sibling freshness marker matches the
item's lastmod and `force` is unset, `mirror_package` returns the bare
boolean `True` (govinfo.py line 353) — not a list of written paths.  In
the embedding the two Python return shapes are the distinct constructors
`MirrorRet.pyTrue` and `MirrorRet.paths`. -/
theorem C5_counterexample :
    (mirror_package "BILLS" "p1" "2024-01-01" [("package", "2024-01-01")] {}
      ⟨some "out", some (.valid []), some "2024-01-01", .valid []⟩).ret
      = .ok .pyTrue
    ∧ (mirror_package "BILLS" "p1" "2024-01-01" [("package", "2024-01-01")] {}
        ⟨some "out", some (.valid []), some "2024-01-01", .valid []⟩).ret
      ≠ .ok (.paths []) := by decide

/-- C5 amended: `mirror_package` returns the bare value `True` exactly
when the output path resolves, the sibling freshness marker file exists
and equals the item's lastmod, and `force` is not set; in that case it
skips all fetch and extract work (no ZIP fetch, no archive open, no file
written or deleted, marker and archive untouched), reporting the archive
as present.  On every other input its Python return value is a list of
paths (or a propagated exception), never `True`. -/
theorem C5_marker_short_circuit : ∀ (collection package_name lastmod : String)
    (cache : Dict) (o : Options) (env : MirrorEnv),
    ((mirror_package collection package_name lastmod cache o env).ret = .ok .pyTrue
      ↔ env.path.isSome = true ∧ env.marker0 = some lastmod ∧ o.force = false)
    ∧ (env.path.isSome = true → env.marker0 = some lastmod → o.force = false →
        (mirror_package collection package_name lastmod cache o env).fetchedZip = false
        ∧ (mirror_package collection package_name lastmod cache o env).opened = false
        ∧ (mirror_package collection package_name lastmod cache o env).written = []
        ∧ (mirror_package collection package_name lastmod cache o env).deletedArchive = false
        ∧ (mirror_package collection package_name lastmod cache o env).marker = env.marker0
        ∧ (mirror_package collection package_name lastmod cache o env).archive = env.archive0) := by
  intro collection package_name lastmod cache o env
  rcases env with ⟨path?, archive0, marker0, remote⟩
  rcases path? with _ | path
  · constructor
    · simp [mirror_package]
    · intro h
      exact absurd h (by simp)
  · by_cases hm : (marker0.isSome = true ∧ o.force = false ∧ marker0 = some lastmod)
    · constructor
      · refine ⟨fun _ => ⟨by simp, hm.2.2, hm.2.1⟩, fun _ => ?_⟩
        simp [mirror_package, hm]
      · intro h1 h2 h3
        refine ⟨?_, ?_, ?_, ?_, ?_, ?_⟩ <;> simp [mirror_package, hm]
    · have hne : (mirror_package collection package_name lastmod cache o
          ⟨some path, archive0, marker0, remote⟩).ret ≠ .ok .pyTrue := by
        simp only [mirror_package]
        rw [if_neg hm]
        split <;> simp
      have hrhs : ¬((some path : Option String).isSome = true
          ∧ marker0 = some lastmod ∧ o.force = false) := by
        rintro ⟨-, h2, h3⟩
        exact hm ⟨by rw [h2]; rfl, h3, h2⟩
      exact ⟨iff_of_false hne hrhs,
        fun h1 h2 h3 => absurd ⟨by rw [show marker0 = some lastmod from h2]; rfl, h3, h2⟩ hm⟩

/-- Witness for C5's amended statement at a concrete input. -/
theorem C5_marker_short_circuit_witness :
    (mirror_package "BILLS" "p1" "L" [] {}
      ⟨some "out", some (.valid []), some "L", .valid []⟩).ret = .ok .pyTrue :=
  (C5_marker_short_circuit "BILLS" "p1" "L" [] {}
    ⟨some "out", some (.valid []), some "L", .valid []⟩).1.mpr
    ⟨by decide, by decide, by decide⟩

/-! ### C1 -/

/-- C1 counterexample.  First scenario: a corrupt archive on disk whose
sibling marker MATCHES the item's lastmod is skipped entirely — the run
returns `True`, detects nothing and deletes nothing (neither the archive
nor the marker), contradicting the claim.  Second scenario: when the
marker does not match (so the extractor actually runs) the corruption is
detected and the archive deleted, but the marker file is still NOT
deleted — only the in-function variable is set to `None` so the marker is
not rewritten (govinfo.py 365-375). -/
theorem C1_counterexample :
    ((mirror_package "BILLS" "p1" "L" [("package", "L")] { extract := "pdf" }
        ⟨some "out", some .corrupt, some "L", .valid []⟩).ret = .ok .pyTrue
      ∧ (mirror_package "BILLS" "p1" "L" [("package", "L")] { extract := "pdf" }
          ⟨some "out", some .corrupt, some "L", .valid []⟩).deletedArchive = false
      ∧ (mirror_package "BILLS" "p1" "L" [("package", "L")] { extract := "pdf" }
          ⟨some "out", some .corrupt, some "L", .valid []⟩).archive = some .corrupt)
    ∧ ((mirror_package "BILLS" "p1" "L" [("package", "L")] { extract := "pdf" }
          ⟨some "out", some .corrupt, some "OLD", .valid []⟩).deletedArchive = true
      ∧ (mirror_package "BILLS" "p1" "L" [("package", "L")] { extract := "pdf" }
          ⟨some "out", some .corrupt, some "OLD", .valid []⟩).marker = some "OLD") := by
  decide

/-- C1 amended: for a container item whose archive on disk is corrupt,
whose recorded package timestamp equals the item's lastmod (so the archive
is not re-downloaded first), whose sibling marker does NOT equal the
item's lastmod (otherwise the run skips the item entirely), with `force`
unset and at least one requested format eligible, a single run detects the
corruption, deletes the archive file — but not the marker file, which is
merely left unwritten — and returns zero extracted paths. -/
theorem C1_corruption_recovery : ∀ (collection package_name lastmod pth : String)
    (cache : Dict) (o : Options) (m0 : Option String) (remote : ZipData),
    o.force = false →
    dget cache "package" = some lastmod →
    m0 ≠ some lastmod →
    (requested_formats o).filter (eligibleFmt cache lastmod) ≠ [] →
    (mirror_package collection package_name lastmod cache o
        ⟨some pth, some .corrupt, m0, remote⟩).ret = .ok (.paths [])
    ∧ (mirror_package collection package_name lastmod cache o
        ⟨some pth, some .corrupt, m0, remote⟩).archive = none
    ∧ (mirror_package collection package_name lastmod cache o
        ⟨some pth, some .corrupt, m0, remote⟩).deletedArchive = true
    ∧ (mirror_package collection package_name lastmod cache o
        ⟨some pth, some .corrupt, m0, remote⟩).marker = m0
    ∧ (mirror_package collection package_name lastmod cache o
        ⟨some pth, some .corrupt, m0, remote⟩).fetchedZip = false := by
  intro collection package_name lastmod pth cache o m0 remote hf hpkg hm0 helig
  have hmneg : ¬(m0.isSome = true ∧ o.force = false ∧ m0 = some lastmod) := by
    rintro ⟨-, -, h3⟩
    exact hm0 h3
  have hzip : mirror_package_zipfile lastmod cache o (some .corrupt) remote
      = ⟨false, some .corrupt, cache⟩ := by
    simp [mirror_package_zipfile, hpkg, hf]
  have heli := computeEligible_with_package cache lastmod hpkg (requested_formats o)
  have hext : extract_package_files collection package_name (pth ++ "/package.zip")
      cache o (some .corrupt)
      = ⟨.error .badZipfile, true, [], cache, []⟩ := by
    simp [extract_package_files, heli, helig]
  refine ⟨?_, ?_, ?_, ?_, ?_⟩ <;>
    simp [mirror_package, hmneg, hzip, hext]

/-- Witness for C1's amended statement at a concrete input: the requested
`pdf` component is recorded strictly older than the package timestamp
(`"A" < "L"`), hence eligible, so the corrupt archive is opened, detected
and deleted while the marker file survives. -/
theorem C1_corruption_recovery_witness :
    (mirror_package "BILLS" "p1" "L" [("package", "L"), ("pdf", "A")]
      { extract := "pdf" }
      ⟨some "out", some .corrupt, some "OLD", .valid []⟩).deletedArchive = true
    ∧ (mirror_package "BILLS" "p1" "L" [("package", "L"), ("pdf", "A")]
        { extract := "pdf" }
        ⟨some "out", some .corrupt, some "OLD", .valid []⟩).marker = some "OLD" :=
  ⟨(C1_corruption_recovery "BILLS" "p1" "L" "out" [("package", "L"), ("pdf", "A")]
      { extract := "pdf" } (some "OLD") (.valid [])
      (by decide) (by decide) (by decide) (by decide)).2.2.1,
   (C1_corruption_recovery "BILLS" "p1" "L" "out" [("package", "L"), ("pdf", "A")]
      { extract := "pdf" } (some "OLD") (.valid [])
      (by decide) (by decide) (by decide) (by decide)).2.2.2.1⟩

/-! ### Extraction-loop characterization (for C8) -/

/-- The paths one format contributes to the extractor's result: nothing
when its member is absent from the archive; its local destination — plus,
for `"text"`, the unwrapped plain-text sibling — when present. -/
def formatExtractPaths (collection package_name dir : String) (members : Dict)
    (f : String) : List String :=
  match format_paths collection package_name f with
  | none => []
  | some (package_path, local_name) =>
      match dget members package_path with
      | none => []
      | some _ =>
          let lp := osJoin dir local_name
          if f = "text" then [lp, pyReplace lp ".html" ".txt"] else [lp]

/-- No recognized format is named `"package"`, so the loop's cache updates
never clobber the package timestamp. -/
theorem format_paths_ne_package (collection package_name f : String)
    (h : (format_paths collection package_name f).isSome = true) : f ≠ "package" := by
  intro he
  subst he
  rw [show format_paths collection package_name "package" = none from rfl] at h
  exact absurd h (by simp)

/-- Full characterization of the per-format loop when the package
timestamp is present and all formats are recognized: it returns the
accumulated paths plus each format's contribution, records the package
timestamp for every processed format, and touches no other key. -/
theorem extractLoop_spec (collection package_name dir : String) (members : Dict)
    (p : String) :
    ∀ (L : List String) (cache : Dict) (w e m : List String),
    dget cache "package" = some p →
    (∀ f ∈ L, (format_paths collection package_name f).isSome = true) →
    (extractLoop collection package_name dir members cache w e m L).ret
      = .ok (e ++ L.flatMap (formatExtractPaths collection package_name dir members))
    ∧ (∀ f ∈ L,
        dget (extractLoop collection package_name dir members cache w e m L).cache f
          = some p)
    ∧ (∀ x, x ∉ L →
        dget (extractLoop collection package_name dir members cache w e m L).cache x
          = dget cache x) := by
  intro L
  induction L with
  | nil =>
      intro cache w e m hp hv
      exact ⟨by simp [extractLoop], by simp, fun x _ => by simp [extractLoop]⟩
  | cons f rest ih =>
      intro cache w e m hp hv
      obtain ⟨pr, hfp⟩ := Option.isSome_iff_exists.mp (hv f (by simp))
      obtain ⟨mp, ln⟩ := pr
      have hfne : f ≠ "package" :=
        format_paths_ne_package collection package_name f (by rw [hfp]; rfl)
      have hp' : dget (dset cache f p) "package" = some p := by
        rw [dget_dset_ne _ _ _ _ (fun hh => hfne hh.symm)]
        exact hp
      have hv' : ∀ g ∈ rest, (format_paths collection package_name g).isSome = true :=
        fun g hg => hv g (by simp [hg])
      rcases hm : dget members mp with _ | bytes
      · -- member absent: nothing contributed, timestamp still recorded
        have hstep : extractLoop collection package_name dir members cache w e m (f :: rest)
            = extractLoop collection package_name dir members (dset cache f p) w e m rest := by
          simp [extractLoop, hfp, hm, hp]
        have ihh := ih (dset cache f p) w e m hp' hv'
        have hFf : formatExtractPaths collection package_name dir members f = [] := by
          simp [formatExtractPaths, hfp, hm]
        refine ⟨?_, ?_, ?_⟩
        · rw [hstep, ihh.1, List.flatMap_cons, hFf]
          simp
        · intro g hg
          rw [hstep]
          rcases List.mem_cons.mp hg with h | h
          · subst h
            by_cases hgr : g ∈ rest
            · exact ihh.2.1 g hgr
            · rw [ihh.2.2 g hgr]
              exact dget_dset_self cache g p
          · exact ihh.2.1 g h
        · intro x hx
          rw [hstep, ihh.2.2 x (fun hh => hx (by simp [hh]))]
          exact dget_dset_ne cache f p x (fun hh => hx (by simp [hh]))
      · -- member present: the local path (and text sibling) are recorded
        have hstep : extractLoop collection package_name dir members cache w e m (f :: rest)
            = extractLoop collection package_name dir members (dset cache f p)
                (if f = "text" then (w ++ [osJoin dir ln])
                    ++ [pyReplace (osJoin dir ln) ".html" ".txt"]
                  else w ++ [osJoin dir ln])
                (if f = "text" then (e ++ [osJoin dir ln])
                    ++ [pyReplace (osJoin dir ln) ".html" ".txt"]
                  else e ++ [osJoin dir ln])
                (if collection = "BILLS" && f = "mods" then m ++ [package_name] else m)
                rest := by
          simp [extractLoop, hfp, hm, hp]
        have hFf : formatExtractPaths collection package_name dir members f
            = if f = "text" then
                [osJoin dir ln, pyReplace (osJoin dir ln) ".html" ".txt"]
              else [osJoin dir ln] := by
          simp [formatExtractPaths, hfp, hm]
        have ihh := ih (dset cache f p)
          (if f = "text" then (w ++ [osJoin dir ln])
              ++ [pyReplace (osJoin dir ln) ".html" ".txt"]
            else w ++ [osJoin dir ln])
          (if f = "text" then (e ++ [osJoin dir ln])
              ++ [pyReplace (osJoin dir ln) ".html" ".txt"]
            else e ++ [osJoin dir ln])
          (if collection = "BILLS" && f = "mods" then m ++ [package_name] else m)
          hp' hv'
        refine ⟨?_, ?_, ?_⟩
        · rw [hstep, ihh.1, List.flatMap_cons, hFf]
          by_cases htext : f = "text"
          · simp [htext]
          · simp [htext]
        · intro g hg
          rw [hstep]
          rcases List.mem_cons.mp hg with h | h
          · subst h
            by_cases hgr : g ∈ rest
            · exact ihh.2.1 g hgr
            · rw [ihh.2.2 g hgr]
              exact dget_dset_self cache g p
          · exact ihh.2.1 g h
        · intro x hx
          rw [hstep, ihh.2.2 x (fun hh => hx (by simp [hh]))]
          exact dget_dset_ne cache f p x (fun hh => hx (by simp [hh]))

/-! ### C8 -/

/-- C8: when the extractor attempts an eligible format whose member is
absent from the archive, this is not an error: the extractor returns the
per-format decomposition of the extracted paths in which that format
contributes no path, yet the format's recorded timestamp in the item
record is still updated to equal the package timestamp (the `finally:` on
govinfo.py 477-482), so the format is not retried until the package
timestamp changes. -/
theorem C8_member_absent : ∀ (collection package_name package_file : String)
    (cache : Dict) (o : Options) (members : Dict) (f mp ln p : String),
    dget cache "package" = some p →
    (∀ g ∈ requested_formats o, (format_paths collection package_name g).isSome = true) →
    f ∈ requested_formats o →
    eligibleFmt cache p f = true →
    format_paths collection package_name f = some (mp, ln) →
    dget members mp = none →
    (extract_package_files collection package_name package_file cache o
        (some (.valid members))).ret
      = .ok (((requested_formats o).filter (eligibleFmt cache p)).flatMap
          (formatExtractPaths collection package_name (dirname package_file) members))
    ∧ formatExtractPaths collection package_name (dirname package_file) members f = []
    ∧ dget (extract_package_files collection package_name package_file cache o
        (some (.valid members))).cache f = some p := by
  intro collection package_name package_file cache o members f mp ln p hp hval hf helig hfp hm
  have hel := computeEligible_with_package cache p hp (requested_formats o)
  have hfin : f ∈ (requested_formats o).filter (eligibleFmt cache p) :=
    List.mem_filter.mpr ⟨hf, helig⟩
  have hne : (requested_formats o).filter (eligibleFmt cache p) ≠ [] := by
    intro hemp
    rw [hemp] at hfin
    exact absurd hfin (by simp)
  have hvalF : ∀ g ∈ (requested_formats o).filter (eligibleFmt cache p),
      (format_paths collection package_name g).isSome = true :=
    fun g hg => hval g (List.mem_filter.mp hg).1
  have hspec := extractLoop_spec collection package_name (dirname package_file) members p
    ((requested_formats o).filter (eligibleFmt cache p)) cache [] [] [] hp hvalF
  have hext : extract_package_files collection package_name package_file cache o
      (some (.valid members))
      = extractLoop collection package_name (dirname package_file) members cache [] [] []
          ((requested_formats o).filter (eligibleFmt cache p)) := by
    simp [extract_package_files, hel, hne]
  refine ⟨?_, ?_, ?_⟩
  · rw [hext, hspec.1]
    simp
  · simp [formatExtractPaths, hfp, hm]
  · rw [hext]
    exact hspec.2.1 f hfin

/-- Witness for C8 at a concrete input: a requested `pdf` whose member is
missing from the archive yields no path but gets its timestamp set. -/
theorem C8_member_absent_witness :
    (extract_package_files "BILLS" "p1" "out/package.zip" [("package", "L")]
      { extract := "pdf" } (some (.valid []))).ret = .ok []
    ∧ dget (extract_package_files "BILLS" "p1" "out/package.zip" [("package", "L")]
        { extract := "pdf" } (some (.valid []))).cache "pdf" = some "L" := by
  have h := C8_member_absent "BILLS" "p1" "out/package.zip" [("package", "L")]
    { extract := "pdf" } [] "pdf" "BILLS-p1/pdf/BILLS-p1.pdf" "document.pdf" "L"
    (by decide) (by decide) (by decide) (by decide) (by decide) (by decide)
  exact ⟨by rw [h.1]; decide, h.2.2⟩

/-! ### C10 -/

/-- C10 counterexample: the claim's first case lacks the requirement that
the archive file exist on disk.  With the archive absent, a requested
format with a recorded timestamp to compare, and no `'package'` key in the
item record, `extract_package_files` returns `[]` (the existence check on
govinfo.py 419-421 fires first) instead of raising `KeyError`. -/
theorem C10_counterexample :
    (extract_package_files "BILLS" "p1" "out/package.zip" [("pdf", "T")]
      { extract := "pdf" } none).ret = .ok [] := by decide

/-- C10 amended: whenever the item record lacks a `'package'` timestamp,
the archive file exists on disk, all requested formats are recognized, and
some requested format must be checked or extracted — either some requested
format has a recorded timestamp to compare, or the archive opens and an
eligible format is processed — `extract_package_files` raises an uncaught
`KeyError` on the `'package'` lookup instead of returning a result. -/
theorem C10_missing_package_keyerror : ∀ (collection package_name package_file : String)
    (cache : Dict) (o : Options) (z : ZipData),
    dget cache "package" = none →
    (∀ g ∈ requested_formats o, (format_paths collection package_name g).isSome = true) →
    requested_formats o ≠ [] →
    ((∃ g ∈ requested_formats o, (dget cache g).isSome = true)
      ∨ ∃ members, z = ZipData.valid members) →
    (extract_package_files collection package_name package_file cache o (some z)).ret
      = .error (.keyError "package") := by
  intro collection package_name package_file cache o z hp hval hne hcases
  by_cases hrec : ∃ g ∈ requested_formats o, (dget cache g).isSome = true
  · have hel := computeEligible_keyError cache hp (requested_formats o) hrec
    simp [extract_package_files, hel]
  · have hall : ∀ g ∈ requested_formats o, dget cache g = none := by
      intro g hg
      rcases hgx : dget cache g with _ | t
      · rfl
      · exact absurd ⟨g, hg, by rw [hgx]; rfl⟩ hrec
    obtain ⟨members, hz⟩ := hcases.resolve_left hrec
    subst hz
    have hel := computeEligible_all_none cache (requested_formats o) hall
    rcases hL : requested_formats o with _ | ⟨f, rest⟩
    · exact absurd hL hne
    · obtain ⟨pr, hfp⟩ := Option.isSome_iff_exists.mp (hval f (by rw [hL]; simp))
      obtain ⟨mp, ln⟩ := pr
      rw [hL] at hel
      have hext : extract_package_files collection package_name package_file cache o
          (some (.valid members))
          = extractLoop collection package_name (dirname package_file) members
              cache [] [] [] (f :: rest) := by
        simp [extract_package_files, hL, hel]
      rw [hext]
      rcases hm : dget members mp with _ | b <;>
        simp [extractLoop, hfp, hm, hp]

/-- Witness for C10's amended statement at a concrete input: with the
(corrupt) archive present on disk the same record now raises. -/
theorem C10_missing_package_keyerror_witness :
    (extract_package_files "BILLS" "p1" "out/package.zip" [("pdf", "T")]
      { extract := "pdf" } (some .corrupt)).ret = .error (.keyError "package") :=
  C10_missing_package_keyerror "BILLS" "p1" "out/package.zip" [("pdf", "T")]
    { extract := "pdf" } .corrupt (by decide) (by decide) (by decide)
    (Or.inl ⟨"pdf", by decide, by decide⟩)
